import Mathlib

/-!
Verification of the PromptCore HR conversational agent's dialogue core.

The development shallowly embeds the Python modules `slots/schemas.py`,
`dialogue/fsm.py` and `dialogue/dialogue_manager.py`.  Python dicts are
modelled as insertion-ordered association lists (matching CPython's
ordered-dict semantics), `Optional[str]` as `Option String`, Python
truthiness of optional strings as emptiness of `getD ""`, and exceptions
(`ValueError` from an unknown intent, `KeyError` from a missing question)
as `Option`-valued functions returning `none`.  Slot values (`Any` in the
Python source, always strings in practice) are modelled as `String`.
Timestamp bookkeeping (`created_at`, `updated_at`) has no bearing on any
behaviour below and is omitted.  The ML components (intent router, slot
selector, slot extractor) and the LLM clients are external to the dialogue
core and are modelled as oracle functions passed explicitly.
-/

/-! ## Ordered association lists (CPython dict semantics) -/

def lookupA {α : Type} (k : String) : List (String × α) → Option α
  | [] => none
  | (k₂, v) :: rest => if k₂ = k then some v else lookupA k rest

/-- `d[k] = v`: update in place if the key is present, else append. -/
def insertA {α : Type} (k : String) (v : α) : List (String × α) → List (String × α)
  | [] => [(k, v)]
  | (k₂, w) :: rest => if k₂ = k then (k₂, v) :: rest else (k₂, w) :: insertA k v rest

/-- In-place mutation of one entry (e.g. `d[k].confirmed = True`). -/
def updateA {α : Type} (k : String) (f : α → α) : List (String × α) → List (String × α)
  | [] => []
  | (k₂, w) :: rest => if k₂ = k then (k₂, f w) :: rest else (k₂, w) :: updateA k f rest

def keysA {α : Type} (l : List (String × α)) : List String := l.map Prod.fst

/-- Python truthiness of an `Optional[str]`: falsy iff `None` or `""`. -/
def optStrFalsy (x : Option String) : Bool := x.getD "" = ""

/-- Python truthiness of the `Optional[Dict[str, str]]` pending-normalization map. -/
def pendTruthy (p : Option (List (String × String))) : Bool := !(p.getD []).isEmpty

/-- `str.lower()`. -/
def strLower (s : String) : String := String.mk (s.data.map Char.toLower)

/-- `str.strip()`: drop leading and trailing whitespace. -/
def strStrip (s : String) : String :=
  String.mk (((s.data.dropWhile Char.isWhitespace).reverse.dropWhile
    Char.isWhitespace).reverse)

/-- `str.replace(old, new)` for a single-character pattern. -/
def strReplaceChar (s : String) (old new : Char) : String :=
  String.mk (s.data.map (fun c => if c = old then new else c))

/-- Contiguous-sublist test on character lists. -/
def listIsInfix (needle : List Char) : List Char → Bool
  | [] => needle.isEmpty
  | c :: rest => needle.isPrefixOf (c :: rest) || listIsInfix needle rest

/-- `needle in hay` on Python strings: contiguous substring test. -/
def strContainsSub (hay needle : String) : Bool := listIsInfix needle.data hay.data

/-! ## `slots/schemas.py` -/

structure SlotSchema where
  name : String
  question : String
  required : Bool := true
deriving DecidableEq, Repr

/-- `TASK_SCHEMAS`, keyed by intent name, in source order. -/
def TASK_SCHEMAS : List (String × List SlotSchema) :=
  [ ("request_time_off",
      [ ⟨"employee_name", "What is your name?", true⟩,
        ⟨"start_date", "When would you like to start your time off?", true⟩,
        ⟨"end_date", "When would you like to return?", true⟩,
        ⟨"time_off_type", "What type of time off is this? (e.g., vacation, sick, personal)", true⟩,
        ⟨"reason", "What is the reason for this time off request?", true⟩,
        ⟨"notify_manager", "Should we notify your manager? (yes/no)", true⟩ ]),
    ("schedule_meeting",
      [ ⟨"organizer_name", "Who is organizing this meeting?", true⟩,
        ⟨"date", "What date should the meeting be scheduled?", true⟩,
        ⟨"start_time", "What time should the meeting start?", true⟩,
        ⟨"end_time", "What time should the meeting end?", true⟩,
        ⟨"participants", "Who should attend this meeting?", true⟩,
        ⟨"meeting_platform", "Which platform should be used? (e.g., Zoom, Teams, Google Meet)", true⟩,
        ⟨"agenda", "What is the agenda for this meeting?", true⟩ ]),
    ("submit_it_ticket",
      [ ⟨"requester_name", "What is your name?", true⟩,
        ⟨"issue_category", "What category does this issue fall under? (e.g., hardware, software, network)", true⟩,
        ⟨"issue_description", "Please describe the issue in detail.", true⟩,
        ⟨"urgency", "What is the urgency level? (low, medium, high, critical)", true⟩,
        ⟨"affected_system", "Which system is affected?", true⟩,
        ⟨"contact_email", "What is your contact email?", true⟩ ]),
    ("file_medical_claim",
      [ ⟨"employee_name", "What is your name?", true⟩,
        ⟨"incident_date", "When did the medical incident occur?", true⟩,
        ⟨"provider_name", "What is the name of the healthcare provider?", true⟩,
        ⟨"claim_amount", "What is the claim amount?", true⟩,
        ⟨"claim_type", "What type of claim is this? (e.g., doctor visit, prescription, procedure)", true⟩,
        ⟨"description", "Please describe the medical claim.", true⟩ ]) ]

/-- `get_schema`; `none` models the `ValueError` on an unknown intent. -/
def get_schema? (intent_name : String) : Option (List SlotSchema) :=
  lookupA intent_name TASK_SCHEMAS

/-- `get_slot_names`. -/
def get_slot_names? (intent_name : String) : Option (List String) :=
  (get_schema? intent_name).map (List.map SlotSchema.name)

/-- `get_slot_questions`. -/
def get_slot_questions? (intent_name : String) : Option (List (String × String)) :=
  (get_schema? intent_name).map (List.map (fun sl => (sl.name, sl.question)))

/-! ## `dialogue/fsm.py` -/

inductive FSMState
  | INIT
  | COLLECTING_SLOT
  | CONFIRMING_NORMALIZATION
  | READY_TO_EXECUTE
  | EXECUTING_ACTION
  | COMPLETED
  | GENERAL_CHAT
  | TERMINATED
deriving DecidableEq, Repr

/-- `SlotValue` dataclass. -/
structure SlotValue where
  value : String
  confirmed : Bool := false
  retry_count : Nat := 0
  normalized_value : Option String := none
  needs_confirmation : Bool := false
deriving DecidableEq, Repr

/-- `FSMStateData` dataclass (timestamps omitted, see the header comment). -/
structure FSMStateData where
  current_state : FSMState := FSMState.INIT
  active_intent : Option String := none
  queued_intents : List String := []
  slot_values : List (String × SlotValue) := []
  current_slot_being_collected : Option String := none
  slot_retry_counts : List (String × Nat) := []
  conversation_id : Option String := none
  pending_normalization : Option (List (String × String)) := none
deriving DecidableEq, Repr

namespace FSM

def MAX_RETRIES : Nat := 3

/-- `FSM.__init__`. -/
def mkFSM (conversation_id : Option String) : FSMStateData :=
  { conversation_id := conversation_id }

/-- `FSM.get_filled_slots`: confirmed slots as a plain name-to-value dict. -/
def get_filled_slots (s : FSMStateData) : List (String × String) :=
  (s.slot_values.filter (fun p => p.2.confirmed)).map (fun p => (p.1, p.2.value))

/-- `FSM.get_missing_slots`; `none` models the `ValueError` from `get_slot_names`. -/
def get_missing_slots (s : FSMStateData) (intent_name : String) : Option (List String) :=
  if intent_name = "" then some []
  else
    (get_slot_names? intent_name).map
      (fun required => required.filter (fun n => (lookupA n s.slot_values).isNone))

/-- `FSM.get_next_missing_slot`: `some none` is the Python `None` result. -/
def get_next_missing_slot (s : FSMStateData) (intent_name : String) : Option (Option String) :=
  (get_missing_slots s intent_name).map (fun missing => missing.head?)

/-- `FSM.transition_to`. -/
def transition_to (s : FSMStateData) (new_state : FSMState) : FSMStateData :=
  { s with current_state := new_state }

/-- `FSM.set_active_intent`. -/
def set_active_intent (s : FSMStateData) (intent_name : String) : Bool × FSMStateData :=
  if s.current_state = FSMState.COLLECTING_SLOT
      ∨ s.current_state = FSMState.CONFIRMING_NORMALIZATION
      ∨ s.current_state = FSMState.READY_TO_EXECUTE
      ∨ s.current_state = FSMState.EXECUTING_ACTION then
    (false,
      { s with
          queued_intents :=
            if intent_name ∈ s.queued_intents then s.queued_intents
            else s.queued_intents ++ [intent_name] })
  else
    (true,
      transition_to
        { s with
            active_intent := some intent_name,
            slot_values := [],
            slot_retry_counts := [],
            current_slot_being_collected := none,
            pending_normalization := none }
        FSMState.COLLECTING_SLOT)

/-- `FSM.set_general_chat`. -/
def set_general_chat (s : FSMStateData) : FSMStateData :=
  transition_to { s with active_intent := none } FSMState.GENERAL_CHAT

/-- `FSM.fill_slot`. -/
def fill_slot (s : FSMStateData) (slot_name : String) (value : String) (confirmed : Bool) :
    Bool × FSMStateData :=
  match lookupA slot_name s.slot_values with
  | some existing =>
    if existing.confirmed then (false, s)
    else
      (true,
        { s with
            slot_values :=
              insertA slot_name
                { value := value, confirmed := confirmed,
                  retry_count := (lookupA slot_name s.slot_retry_counts).getD 0 }
                s.slot_values })
  | none =>
    (true,
      { s with
          slot_values :=
            insertA slot_name
              { value := value, confirmed := confirmed,
                retry_count := (lookupA slot_name s.slot_retry_counts).getD 0 }
              s.slot_values })

/-- `FSM.confirm_slot`. -/
def confirm_slot (s : FSMStateData) (slot_name : String) : Bool × FSMStateData :=
  if (lookupA slot_name s.slot_values).isNone then (false, s)
  else
    (true,
      { s with
          slot_values :=
            updateA slot_name
              (fun sv => { sv with confirmed := true, needs_confirmation := false })
              s.slot_values,
          pending_normalization := none })

/-- `FSM.reject_normalization`. -/
def reject_normalization (s : FSMStateData) (slot_name : String) : FSMStateData :=
  { s with
      slot_values :=
        if (lookupA slot_name s.slot_values).isSome then
          updateA slot_name
            (fun sv => { sv with normalized_value := none, needs_confirmation := false })
            s.slot_values
        else s.slot_values,
      pending_normalization := none }

/-- `FSM.increment_retry`. -/
def increment_retry (s : FSMStateData) (slot_name : String) : Bool × FSMStateData :=
  let current_retries := (lookupA slot_name s.slot_retry_counts).getD 0 + 1
  (decide (current_retries < MAX_RETRIES),
    { s with
        slot_retry_counts := insertA slot_name current_retries s.slot_retry_counts,
        slot_values :=
          if (lookupA slot_name s.slot_values).isSome then
            updateA slot_name (fun sv => { sv with retry_count := current_retries })
              s.slot_values
          else s.slot_values })

/-- `FSM.set_current_slot`. -/
def set_current_slot (s : FSMStateData) (slot_name : Option String) : FSMStateData :=
  { s with current_slot_being_collected := slot_name }

/-- `FSM.set_pending_normalization`. -/
def set_pending_normalization (s : FSMStateData) (slot_name proposed_value : String) :
    FSMStateData :=
  { s with
      pending_normalization :=
        some (insertA slot_name proposed_value (s.pending_normalization.getD [])),
      slot_values :=
        if (lookupA slot_name s.slot_values).isSome then
          updateA slot_name
            (fun sv => { sv with normalized_value := some proposed_value,
                                 needs_confirmation := true })
            s.slot_values
        else s.slot_values }

/-- `FSM.check_all_slots_filled`; `none` models the `ValueError` on an unknown intent. -/
def check_all_slots_filled (s : FSMStateData) (intent_name : String) : Option Bool :=
  if intent_name = "" then some false
  else
    (get_slot_names? intent_name).map
      (fun required =>
        required.all (fun n =>
          match lookupA n s.slot_values with
          | some sv => sv.confirmed
          | none => false))

/-- Result dict of `FSM.process_slot_collection`. -/
inductive SlotCollectResult
  | retry (slot : String)
  | max_retries (slot : String)
  | fill (slot : String) (value : String)
deriving DecidableEq, Repr

/-- `FSM.process_slot_collection`. -/
def process_slot_collection (s : FSMStateData) (slot_name : String)
    (extracted_value : Option String) : SlotCollectResult × FSMStateData :=
  if optStrFalsy extracted_value then
    let r := increment_retry s slot_name
    if r.1 then (SlotCollectResult.retry slot_name, r.2)
    else (SlotCollectResult.max_retries slot_name, r.2)
  else
    let v := extracted_value.getD ""
    (SlotCollectResult.fill slot_name v, (fill_slot s slot_name v false).2)

/-- `FSM.advance_state`; `none` models the `ValueError` from
`check_all_slots_filled` on an unknown active intent. -/
def advance_state (s : FSMStateData) : Option FSMStateData :=
  match s.current_state with
  | FSMState.INIT => some s
  | FSMState.COLLECTING_SLOT =>
    if optStrFalsy s.active_intent then some s
    else
      match check_all_slots_filled s (s.active_intent.getD "") with
      | none => none
      | some true => some (transition_to s FSMState.READY_TO_EXECUTE)
      | some false =>
        if pendTruthy s.pending_normalization then
          some (transition_to s FSMState.CONFIRMING_NORMALIZATION)
        else some s
  | FSMState.CONFIRMING_NORMALIZATION =>
    if optStrFalsy s.active_intent then some s
    else
      match check_all_slots_filled s (s.active_intent.getD "") with
      | none => none
      | some true => some (transition_to s FSMState.READY_TO_EXECUTE)
      | some false => some (transition_to s FSMState.COLLECTING_SLOT)
  | FSMState.READY_TO_EXECUTE => some s
  | FSMState.EXECUTING_ACTION => some (transition_to s FSMState.COMPLETED)
  | FSMState.COMPLETED =>
    match s.queued_intents with
    | next_intent :: rest =>
      some (set_active_intent { s with queued_intents := rest } next_intent).2
    | [] => some { (transition_to s FSMState.INIT) with active_intent := none }
  | FSMState.GENERAL_CHAT => some s
  | FSMState.TERMINATED => some s

/-- `FSM.start_action_execution`. -/
def start_action_execution (s : FSMStateData) : FSMStateData :=
  if s.current_state = FSMState.READY_TO_EXECUTE then
    transition_to s FSMState.EXECUTING_ACTION
  else s

/-- `FSM.complete_action`. -/
def complete_action (s : FSMStateData) : Option FSMStateData :=
  advance_state (transition_to s FSMState.COMPLETED)

/-- `FSM.terminate`. -/
def terminate (s : FSMStateData) : FSMStateData :=
  transition_to s FSMState.TERMINATED

end FSM

/-! ## Snapshots (`FSM.get_state_snapshot` / `FSM.load_state_snapshot`) -/

/-- One entry of the snapshot's `slot_values` dict. -/
structure SnapSlot where
  value : String
  confirmed : Bool
  retry_count : Nat
  normalized_value : Option String
  needs_confirmation : Bool
deriving DecidableEq, Repr

/-- The persistence dict produced by `get_state_snapshot` (`updated_at` omitted,
see the header comment). `current_state` is the enum's `.value` string. -/
structure Snapshot where
  current_state : String
  active_intent : Option String
  queued_intents : List String
  slot_values : List (String × SnapSlot)
  current_slot_being_collected : Option String
  slot_retry_counts : List (String × Nat)
  conversation_id : Option String
  pending_normalization : Option (List (String × String))
deriving DecidableEq, Repr

/-- `FSMState.value` strings of the Python enum. -/
def stateValue : FSMState → String
  | FSMState.INIT => "INIT"
  | FSMState.COLLECTING_SLOT => "COLLECTING_SLOT"
  | FSMState.CONFIRMING_NORMALIZATION => "CONFIRMING_NORMALIZATION"
  | FSMState.READY_TO_EXECUTE => "READY_TO_EXECUTE"
  | FSMState.EXECUTING_ACTION => "EXECUTING_ACTION"
  | FSMState.COMPLETED => "COMPLETED"
  | FSMState.GENERAL_CHAT => "GENERAL_CHAT"
  | FSMState.TERMINATED => "TERMINATED"

/-- `FSMState(str)`: `none` models the `ValueError` on an unknown value string. -/
def stateOfValue? (v : String) : Option FSMState :=
  if v = "INIT" then some FSMState.INIT
  else if v = "COLLECTING_SLOT" then some FSMState.COLLECTING_SLOT
  else if v = "CONFIRMING_NORMALIZATION" then some FSMState.CONFIRMING_NORMALIZATION
  else if v = "READY_TO_EXECUTE" then some FSMState.READY_TO_EXECUTE
  else if v = "EXECUTING_ACTION" then some FSMState.EXECUTING_ACTION
  else if v = "COMPLETED" then some FSMState.COMPLETED
  else if v = "GENERAL_CHAT" then some FSMState.GENERAL_CHAT
  else if v = "TERMINATED" then some FSMState.TERMINATED
  else none

namespace FSM

/-- `FSM.get_state_snapshot`. -/
def get_state_snapshot (s : FSMStateData) : Snapshot :=
  { current_state := stateValue s.current_state,
    active_intent := s.active_intent,
    queued_intents := s.queued_intents,
    slot_values :=
      s.slot_values.map (fun p =>
        (p.1,
          { value := p.2.value, confirmed := p.2.confirmed,
            retry_count := p.2.retry_count,
            normalized_value := p.2.normalized_value,
            needs_confirmation := p.2.needs_confirmation })),
    current_slot_being_collected := s.current_slot_being_collected,
    slot_retry_counts := s.slot_retry_counts,
    conversation_id := s.conversation_id,
    pending_normalization := s.pending_normalization.map id }

/-- `FSM.load_state_snapshot`; `none` models the `ValueError` from
`FSMState(snapshot['current_state'])`. Every modelled field of the state is
overwritten from the snapshot, so the result does not depend on the FSM the
snapshot is loaded into. -/
def load_state_snapshot (snapshot : Snapshot) : Option FSMStateData :=
  (stateOfValue? snapshot.current_state).map (fun st =>
    { current_state := st,
      active_intent := snapshot.active_intent,
      queued_intents := snapshot.queued_intents,
      current_slot_being_collected := snapshot.current_slot_being_collected,
      slot_retry_counts := snapshot.slot_retry_counts,
      conversation_id := snapshot.conversation_id,
      pending_normalization := snapshot.pending_normalization,
      slot_values :=
        snapshot.slot_values.map (fun p =>
          (p.1,
            { value := p.2.value, confirmed := p.2.confirmed,
              retry_count := p.2.retry_count,
              normalized_value := p.2.normalized_value,
              needs_confirmation := p.2.needs_confirmation })) })

end FSM

/-! ## `dialogue/dialogue_manager.py`

The intent router, slot selector and slot extractor are ML components
external to the dialogue core; they are modelled as oracles. -/

structure Oracles where
  detect_intent : String → Option String
  select_slots : String → String → List (String × String) → List String
  extract_slot_value : String → String → String → Option String

/-- The metadata dict attached to a dialogue-manager response, one
constructor per distinct dict shape in the source. -/
inductive Meta
  | empty
  | queued (queued_intent : String)
  | general (user_utterance : String)
  | ask (slot : String) (intent : String) (question : String)
  | retry (slot : String) (question : String)
  | norm (slot : String) (proposed_value : String)
  | exec (intent : Option String) (slots : List (String × String))
deriving DecidableEq, Repr

/-- Response dict of `DialogueManager.process_user_input`. -/
structure DMResult where
  response_text : String
  action : String
  metadata : Meta
deriving DecidableEq, Repr

namespace DM

/-- `DialogueManager._is_execution_confirmation`. -/
def is_execution_confirmation (user_utterance : String) : Bool :=
  let utterance_lower := strStrip (strLower user_utterance)
  ["yes", "yeah", "yep", "sure", "ok", "okay", "proceed", "go ahead", "execute",
    "submit"].any (fun conf => strContainsSub utterance_lower conf)

/-- `DialogueManager._start_slot_collection`; `none` models an uncaught
exception (unknown active intent). -/
def start_slot_collection (s : FSMStateData) : Option (DMResult × FSMStateData) :=
  let intent_name := s.active_intent.getD ""
  if intent_name = "" then
    some (⟨"Error: No active intent.", "error", Meta.empty⟩, s)
  else
    match FSM.get_next_missing_slot s intent_name with
    | none => none
    | some next_slot =>
      if optStrFalsy next_slot then
        (FSM.advance_state s).map (fun s₁ =>
          (⟨"I have all the information I need. Ready to proceed?",
             "ready_to_execute", Meta.empty⟩, s₁))
      else
        let slot := next_slot.getD ""
        let s₁ := FSM.set_current_slot s (some slot)
        match (get_slot_questions? intent_name).bind (lookupA slot) with
        | none => none
        | some question =>
          some (⟨question, "ask_slot", Meta.ask slot intent_name question⟩, s₁)

/-- The retry-or-skip block of `_handle_slot_collection`: the source repeats
this block verbatim at lines 230-254 and 313-335; it is factored here once.
Assumes the caller established that `current_slot` is truthy. -/
def retry_or_skip (s : FSMStateData) (intent_name current_slot : String) :
    Option (DMResult × FSMStateData) :=
  let r := FSM.process_slot_collection s current_slot none
  match r.1 with
  | FSM.SlotCollectResult.max_retries _ =>
    let s₁ := FSM.set_current_slot r.2 none
    match FSM.get_next_missing_slot s₁ intent_name with
    | none => none
    | some next_slot =>
      if !optStrFalsy next_slot then start_slot_collection s₁
      else
        some (⟨"I have the information I need. Ready to proceed?",
               "ready_to_execute", Meta.empty⟩, s₁)
  | _ =>
    match (get_slot_questions? intent_name).bind (lookupA current_slot) with
    | none => none
    | some question =>
      some (⟨"Could you please clarify: " ++ question, "retry_slot",
             Meta.retry current_slot question⟩, r.2)

/-- Fill one slot, confirm it, advance, and either report readiness or ask
for the next slot — the block repeated at lines 212-226 and 299-310. -/
def fill_one_and_continue (s : FSMStateData) (intent_name slot value : String) :
    Option (DMResult × FSMStateData) :=
  let s₁ := (FSM.fill_slot s slot value false).2
  let s₂ := (FSM.confirm_slot s₁ slot).2
  (FSM.advance_state s₂).bind (fun s₃ =>
    match FSM.check_all_slots_filled s₃ intent_name with
    | none => none
    | some true =>
      some (⟨"I have all the information I need. Ready to proceed?",
             "ready_to_execute", Meta.empty⟩, s₃)
    | some false => start_slot_collection s₃)

/-- Lines 256-337 of `_handle_slot_collection`: extraction over the selected
slots, multi-slot fill, the fallback extraction for the current slot, and the
final retry. Reached only when the direct-extraction block at lines 204-254
did not return (i.e. when the selection is nonempty or the current slot is
falsy). -/
def extraction_section (o : Oracles) (user_utterance : String) (s : FSMStateData)
    (intent_name : String) (current_slot : Option String)
    (filled_slots : List (String × String)) (selected_slots : List String) :
    Option (DMResult × FSMStateData) :=
  let extracted_values :=
    selected_slots.foldl
      (fun acc slot_name =>
        if (lookupA slot_name filled_slots).isSome then acc
        else
          let value := o.extract_slot_value user_utterance slot_name intent_name
          if !optStrFalsy value then insertA slot_name (value.getD "") acc else acc)
      []
  if !extracted_values.isEmpty then
    let s₁ :=
      extracted_values.foldl
        (fun t p => (FSM.confirm_slot (FSM.fill_slot t p.1 p.2 false).2 p.1).2) s
    (FSM.advance_state s₁).bind (fun s₂ =>
      match FSM.check_all_slots_filled s₂ intent_name with
      | none => none
      | some true =>
        some (⟨"I have all the information I need. Ready to proceed?",
               "ready_to_execute", Meta.empty⟩, s₂)
      | some false => start_slot_collection s₂)
  else
    let final_retry : Option (DMResult × FSMStateData) :=
      if !optStrFalsy current_slot then
        retry_or_skip s intent_name (current_slot.getD "")
      else some (⟨"Processing...", "processing", Meta.empty⟩, s)
    if !optStrFalsy current_slot ∧ (current_slot.getD "") ∉ selected_slots then
      let value := o.extract_slot_value user_utterance (current_slot.getD "") intent_name
      if !optStrFalsy value then
        fill_one_and_continue s intent_name (current_slot.getD "") (value.getD "")
      else final_retry
    else final_retry

/-- `DialogueManager._handle_slot_collection`. -/
def handle_slot_collection (o : Oracles) (user_utterance : String) (s : FSMStateData) :
    Option (DMResult × FSMStateData) :=
  let intent_name := s.active_intent.getD ""
  if intent_name = "" then
    some (⟨"Error: No active intent.", "error", Meta.empty⟩, s)
  else
    let step1 : Option (Option String × FSMStateData) :=
      if optStrFalsy s.current_slot_being_collected then
        match FSM.get_next_missing_slot s intent_name with
        | none => none
        | some c => some (c, FSM.set_current_slot s c)
      else some (s.current_slot_being_collected, s)
    step1.bind (fun cs =>
      let current_slot := cs.1
      let s₀ := cs.2
      let filled_slots := FSM.get_filled_slots s₀
      let selected_slots := o.select_slots user_utterance intent_name filled_slots
      if selected_slots.isEmpty ∧ !optStrFalsy current_slot then
        -- lines 204-226: direct extraction for the current slot, then
        -- lines 229-254: retry when it produced nothing
        let value := o.extract_slot_value user_utterance (current_slot.getD "") intent_name
        if !optStrFalsy value then
          fill_one_and_continue s₀ intent_name (current_slot.getD "") (value.getD "")
        else retry_or_skip s₀ intent_name (current_slot.getD "")
      else
        extraction_section o user_utterance s₀ intent_name current_slot filled_slots
          selected_slots)

/-- `DialogueManager._handle_normalization_confirmation`. -/
def handle_normalization_confirmation (user_utterance : String) (s : FSMStateData) :
    Option (DMResult × FSMStateData) :=
  let utterance_lower := strStrip (strLower user_utterance)
  if utterance_lower ∈ ["yes", "yeah", "yep", "sure", "ok", "okay", "confirm", "correct"] then
    let s₁ :=
      if pendTruthy s.pending_normalization then
        (keysA (s.pending_normalization.getD [])).foldl
          (fun t n => (FSM.confirm_slot t n).2) s
      else s
    (FSM.advance_state s₁).bind start_slot_collection
  else if utterance_lower ∈ ["no", "nope", "nah", "incorrect", "wrong"] then
    let s₁ :=
      if pendTruthy s.pending_normalization then
        (keysA (s.pending_normalization.getD [])).foldl
          (fun t n => FSM.reject_normalization t n) s
      else s
    (FSM.advance_state s₁).bind start_slot_collection
  else
    match s.pending_normalization with
    | some ((slot_name, proposed_value) :: _) =>
      some (⟨"I proposed: " ++ proposed_value ++ ". Is this correct? (yes/no)",
             "confirm_normalization", Meta.norm slot_name proposed_value⟩, s)
    | _ =>
      some (⟨"Please confirm: yes or no?", "confirm_normalization", Meta.empty⟩, s)

/-- `DialogueManager.process_user_input`. -/
def process_user_input (o : Oracles) (user_utterance : String) (s : FSMStateData) :
    Option (DMResult × FSMStateData) :=
  if strStrip user_utterance = "" then
    some (⟨"I didn\x27t catch that. Could you please repeat?", "clarify", Meta.empty⟩, s)
  else if s.current_state = FSMState.TERMINATED then
    some (⟨"This conversation has been terminated.", "terminated", Meta.empty⟩, s)
  else if s.current_state = FSMState.INIT ∨ s.current_state = FSMState.GENERAL_CHAT then
    let detected := o.detect_intent user_utterance
    if !optStrFalsy detected then
      let detected_intent := detected.getD ""
      let r := FSM.set_active_intent s detected_intent
      if r.1 then start_slot_collection r.2
      else
        some (⟨"I\x27ve noted your request for " ++ strReplaceChar detected_intent '_' ' ' 
                 ++ ". I\x27ll help you with that once we finish the current task.",
               "intent_queued", Meta.queued detected_intent⟩, r.2)
    else
      let s₁ := if s.current_state = FSMState.INIT then FSM.set_general_chat s else s
      some (⟨"", "general_chat", Meta.general user_utterance⟩, s₁)
  else if s.current_state = FSMState.CONFIRMING_NORMALIZATION then
    handle_normalization_confirmation user_utterance s
  else if s.current_state = FSMState.COLLECTING_SLOT then
    handle_slot_collection o user_utterance s
  else if s.current_state = FSMState.READY_TO_EXECUTE then
    if is_execution_confirmation user_utterance then
      some (⟨"Executing your request...", "execute_action",
             Meta.exec s.active_intent (FSM.get_filled_slots s)⟩, s)
    else handle_slot_collection o user_utterance s
  else
    some (⟨"I\x27m processing your request. Please wait.", "processing", Meta.empty⟩, s)

end DM

/-! ## Association-list lemmas -/

theorem lookupA_insertA_self {α : Type} (k : String) (v : α) (l : List (String × α)) :
    lookupA k (insertA k v l) = some v := by
  induction l with
  | nil => simp [insertA, lookupA]
  | cons p rest ih =>
    obtain ⟨k₂, w⟩ := p
    by_cases h : k₂ = k <;> simp [insertA, lookupA, h, ih]

theorem lookupA_insertA_ne {α : Type} (k k' : String) (v : α) (l : List (String × α))
    (h : k' ≠ k) : lookupA k' (insertA k v l) = lookupA k' l := by
  induction l with
  | nil => simp [insertA, lookupA, Ne.symm h]
  | cons p rest ih =>
    obtain ⟨k₂, w⟩ := p
    by_cases h₂ : k₂ = k
    · subst h₂
      have h₃ : ¬k₂ = k' := fun hh => h hh.symm
      simp [insertA, lookupA, h₃]
    · simp only [insertA, if_neg h₂, lookupA]
      by_cases h₃ : k₂ = k' <;> simp [h₃, ih]

theorem lookupA_updateA_self {α : Type} (k : String) (f : α → α) (l : List (String × α)) :
    lookupA k (updateA k f l) = (lookupA k l).map f := by
  induction l with
  | nil => simp [updateA, lookupA]
  | cons p rest ih =>
    obtain ⟨k₂, w⟩ := p
    by_cases h : k₂ = k <;> simp [updateA, lookupA, h, ih]

theorem lookupA_updateA_ne {α : Type} (k k' : String) (f : α → α) (l : List (String × α))
    (h : k' ≠ k) : lookupA k' (updateA k f l) = lookupA k' l := by
  induction l with
  | nil => simp [updateA]
  | cons p rest ih =>
    obtain ⟨k₂, w⟩ := p
    by_cases h₂ : k₂ = k
    · subst h₂
      have h₃ : ¬k₂ = k' := fun hh => h hh.symm
      simp [updateA, lookupA, h₃]
    · simp only [updateA, if_neg h₂, lookupA]
      by_cases h₃ : k₂ = k' <;> simp [h₃, ih]

theorem keysA_updateA {α : Type} (k : String) (f : α → α) (l : List (String × α)) :
    keysA (updateA k f l) = keysA l := by
  induction l with
  | nil => rfl
  | cons p rest ih =>
    obtain ⟨k₂, w⟩ := p
    by_cases h : k₂ = k
    · simp [updateA, keysA, h]
    · simp only [updateA, if_neg h, keysA, List.map_cons]
      simpa [keysA] using ih

/-! ## C1: confirmed-slot immutability -/

/-- C1: once `confirm_slot` has succeeded for a slot, any subsequent
`fill_slot` for the same slot (with any value and any confirmed flag)
returns `false` and leaves the whole state — in particular the stored value
and confirmed flag of that slot — unchanged. -/
theorem C1_confirmed_slot_immutable (s : FSMStateData) (name value : String) (conf : Bool)
    (h : (FSM.confirm_slot s name).1 = true) :
    FSM.fill_slot (FSM.confirm_slot s name).2 name value conf
      = (false, (FSM.confirm_slot s name).2) := by
  unfold FSM.confirm_slot at h ⊢
  cases hl : lookupA name s.slot_values with
  | none => simp [hl] at h
  | some sv =>
    simp only [hl, Option.isNone_some, Bool.false_eq_true, if_false]
    unfold FSM.fill_slot
    simp [lookupA_updateA_self, hl]

/-- C1 witness: a concrete slot filled then confirmed on a fresh FSM. -/
theorem C1_confirmed_slot_immutable_witness :
    ((FSM.confirm_slot
        (FSM.fill_slot (FSM.mkFSM none) "employee_name" "John" false).2
        "employee_name").1 = true)
    ∧ FSM.fill_slot
        (FSM.confirm_slot
          (FSM.fill_slot (FSM.mkFSM none) "employee_name" "John" false).2
          "employee_name").2 "employee_name" "Jane" true
      = (false,
          (FSM.confirm_slot
            (FSM.fill_slot (FSM.mkFSM none) "employee_name" "John" false).2
            "employee_name").2) :=
  ⟨by decide,
    C1_confirmed_slot_immutable
      (FSM.fill_slot (FSM.mkFSM none) "employee_name" "John" false).2
      "employee_name" "Jane" true (by decide)⟩

/-! ## C4: retry bound -/

/-- State after `k` calls of `increment_retry` for `name`. -/
def retryState (s : FSMStateData) (name : String) : Nat → FSMStateData
  | 0 => s
  | n + 1 => (FSM.increment_retry (retryState s name n) name).2

theorem retryState_count (s : FSMStateData) (name : String)
    (h : lookupA name s.slot_retry_counts = none) :
    ∀ k, (lookupA name (retryState s name k).slot_retry_counts).getD 0 = k := by
  intro k
  induction k with
  | zero => simp [retryState, h]
  | succ n ih =>
    simp [retryState, FSM.increment_retry, lookupA_insertA_self, ih]

/-- C4: starting from a state with no retry counter for the slot (a fresh
task instance), the `k+1`-st call of `increment_retry` returns `true` iff
`k + 1 < 3`: `true` on the first and second calls, `false` on the third and
every later call, whether or not a slot record exists; and a successful
`set_active_intent` (a new task instance) resets all retry counters. -/
theorem C4_retry_bound (s : FSMStateData) (name : String)
    (h : lookupA name s.slot_retry_counts = none) :
    (∀ k, (FSM.increment_retry (retryState s name k) name).1
        = decide (k + 1 < FSM.MAX_RETRIES))
    ∧ (∀ (t : FSMStateData) (intent : String),
        (FSM.set_active_intent t intent).1 = true →
        (FSM.set_active_intent t intent).2.slot_retry_counts = []) := by
  constructor
  · intro k
    simp [FSM.increment_retry, retryState_count s name h k]
  · intro t intent ht
    unfold FSM.set_active_intent at ht ⊢
    by_cases hc : t.current_state = FSMState.COLLECTING_SLOT
        ∨ t.current_state = FSMState.CONFIRMING_NORMALIZATION
        ∨ t.current_state = FSMState.READY_TO_EXECUTE
        ∨ t.current_state = FSMState.EXECUTING_ACTION
    · simp [hc] at ht
    · simp [hc, FSM.transition_to]

/-- C4 witness: on a fresh FSM the first call returns `true` and the third
returns `false`. -/
theorem C4_retry_bound_witness :
    (FSM.increment_retry (retryState (FSM.mkFSM none) "notify_manager" 0) "notify_manager").1
      = true
    ∧ (FSM.increment_retry (retryState (FSM.mkFSM none) "notify_manager" 2) "notify_manager").1
      = false := by
  have h := C4_retry_bound (FSM.mkFSM none) "notify_manager" (by decide)
  exact ⟨by simpa using h.1 0, by simpa using h.1 2⟩

/-! ## C6: single active task -/

/-- C6: in any of the four task-in-progress phases, `set_active_intent`
returns `false` and changes nothing except appending the name to the queue
when it is not already present. -/
theorem C6_single_active_task (s : FSMStateData) (n : String)
    (h : s.current_state = FSMState.COLLECTING_SLOT
      ∨ s.current_state = FSMState.CONFIRMING_NORMALIZATION
      ∨ s.current_state = FSMState.READY_TO_EXECUTE
      ∨ s.current_state = FSMState.EXECUTING_ACTION) :
    FSM.set_active_intent s n
      = (false,
          { s with
              queued_intents :=
                if n ∈ s.queued_intents then s.queued_intents
                else s.queued_intents ++ [n] }) := by
  unfold FSM.set_active_intent
  simp [h]

/-- C6 witness: queueing a second task while collecting slots for the first. -/
theorem C6_single_active_task_witness :
    FSM.set_active_intent (FSM.set_active_intent (FSM.mkFSM none) "request_time_off").2
        "schedule_meeting"
      = (false,
          { (FSM.set_active_intent (FSM.mkFSM none) "request_time_off").2 with
              queued_intents :=
                if "schedule_meeting"
                    ∈ (FSM.set_active_intent (FSM.mkFSM none) "request_time_off").2.queued_intents
                then (FSM.set_active_intent (FSM.mkFSM none) "request_time_off").2.queued_intents
                else (FSM.set_active_intent (FSM.mkFSM none) "request_time_off").2.queued_intents
                  ++ ["schedule_meeting"] }) :=
  C6_single_active_task (FSM.set_active_intent (FSM.mkFSM none) "request_time_off").2
    "schedule_meeting" (by decide)

/-! ## C7: TERMINATED is claimed to be a sink -/

/-- C7 (code bug): calling `set_active_intent` on a terminated FSM is *not*
rejected — it returns `true`, starts the task and moves the phase to
`COLLECTING_SLOT`, contradicting both the claim and the method's own
docstring ("Only allowed in INIT or GENERAL_CHAT states"). -/
theorem C7_terminated_not_sink :
    (FSM.set_active_intent (FSM.terminate (FSM.mkFSM none)) "request_time_off").1 = true
    ∧ (FSM.set_active_intent (FSM.terminate (FSM.mkFSM none)) "request_time_off").2.current_state
        = FSMState.COLLECTING_SLOT
    ∧ (FSM.set_active_intent (FSM.terminate (FSM.mkFSM none)) "request_time_off").2.active_intent
        = some "request_time_off" := by decide

/-! ## C10: queue de-duplication ignores the active task -/

/-- C10: during a task-in-progress phase, `set_active_intent` with the name
of the *currently active* intent still appends that name to the queue (the
dedup check looks only at the queue); later, from `COMPLETED`,
`advance_state` dequeues it and restarts the identical task with the slot
store reset. -/
theorem C10_active_name_requeued (s : FSMStateData) (n : String)
    (h1 : s.current_state = FSMState.COLLECTING_SLOT
      ∨ s.current_state = FSMState.CONFIRMING_NORMALIZATION
      ∨ s.current_state = FSMState.READY_TO_EXECUTE
      ∨ s.current_state = FSMState.EXECUTING_ACTION)
    (_h2 : s.active_intent = some n)
    (h3 : n ∉ s.queued_intents) :
    FSM.set_active_intent s n = (false, { s with queued_intents := s.queued_intents ++ [n] })
    ∧ ∀ (t : FSMStateData) (rest : List String),
        t.current_state = FSMState.COMPLETED →
        t.queued_intents = n :: rest →
        FSM.advance_state t
            = some (FSM.set_active_intent { t with queued_intents := rest } n).2
        ∧ (FSM.set_active_intent { t with queued_intents := rest } n).2.active_intent = some n
        ∧ (FSM.set_active_intent { t with queued_intents := rest } n).2.current_state
            = FSMState.COLLECTING_SLOT
        ∧ (FSM.set_active_intent { t with queued_intents := rest } n).2.slot_values = []
        ∧ (FSM.set_active_intent { t with queued_intents := rest } n).2.queued_intents = rest := by
  constructor
  · unfold FSM.set_active_intent
    simp [h1, h3]
  · intro t rest ht hq
    refine ⟨?_, ?_, ?_, ?_, ?_⟩
    · unfold FSM.advance_state
      rw [ht, hq]
    all_goals
      unfold FSM.set_active_intent
      simp [ht, FSM.transition_to]

/-- C10 witness: requeue the active task name, complete, and restart it. -/
theorem C10_active_name_requeued_witness :
    FSM.set_active_intent (FSM.set_active_intent (FSM.mkFSM none) "request_time_off").2
        "request_time_off"
      = (false,
          { (FSM.set_active_intent (FSM.mkFSM none) "request_time_off").2 with
              queued_intents := ["request_time_off"] })
    ∧ FSM.advance_state
        { (FSM.set_active_intent (FSM.mkFSM none) "request_time_off").2 with
            current_state := FSMState.COMPLETED,
            queued_intents := ["request_time_off"] }
      = some (FSM.set_active_intent
          { (FSM.set_active_intent (FSM.mkFSM none) "request_time_off").2 with
              current_state := FSMState.COMPLETED,
              queued_intents := [] } "request_time_off").2 := by
  have h := C10_active_name_requeued
    (FSM.set_active_intent (FSM.mkFSM none) "request_time_off").2
    "request_time_off" (by decide) (by decide) (by decide)
  refine ⟨by simpa using h.1, ?_⟩
  exact (h.2
    { (FSM.set_active_intent (FSM.mkFSM none) "request_time_off").2 with
        current_state := FSMState.COMPLETED,
        queued_intents := ["request_time_off"] } [] rfl rfl).1

/-! ## C5: snapshot round-trip -/

theorem snap_slots_roundtrip (l : List (String × SlotValue)) :
    (l.map (fun p =>
      (p.1,
        ({ value := p.2.value, confirmed := p.2.confirmed,
           retry_count := p.2.retry_count,
           normalized_value := p.2.normalized_value,
           needs_confirmation := p.2.needs_confirmation } : SnapSlot)))).map
      (fun p =>
        (p.1,
          ({ value := p.2.value, confirmed := p.2.confirmed,
             retry_count := p.2.retry_count,
             normalized_value := p.2.normalized_value,
             needs_confirmation := p.2.needs_confirmation } : SlotValue))) = l := by
  induction l with
  | nil => rfl
  | cons p rest ih =>
    obtain ⟨n, sv⟩ := p
    simp [ih]

/-- C5: restoring the snapshot of any session state reproduces the state
exactly — phase, active intent, queue, every slot record with all five
fields, retry counters, conversation id and pending normalization. -/
theorem C5_snapshot_roundtrip (s : FSMStateData) :
    FSM.load_state_snapshot (FSM.get_state_snapshot s) = some s := by
  obtain ⟨st, ai, qi, sv, cs, rc, cid, pn⟩ := s
  have hs : ∀ st : FSMState, stateOfValue? (stateValue st) = some st := by
    intro st; cases st <;> rfl
  unfold FSM.load_state_snapshot FSM.get_state_snapshot
  simp only [hs, Option.map_some', Option.some.injEq, FSMStateData.mk.injEq,
    Option.map_id, id_eq]
  simp only [true_and, and_true]
  exact snap_slots_roundtrip sv

/-! ## C3: which slots count as missing -/

/-- C3 counterexample: a slot whose record exists but is *unconfirmed* is
not reported as missing. After filling `employee_name` unconfirmed,
`get_next_missing_slot` skips it and returns `start_date`. -/
theorem C3_counterexample :
    ((lookupA "employee_name"
        ((FSM.fill_slot (FSM.set_active_intent (FSM.mkFSM none) "request_time_off").2
            "employee_name" "John" false).2).slot_values).map SlotValue.confirmed
      = some false)
    ∧ FSM.get_next_missing_slot
        (FSM.fill_slot (FSM.set_active_intent (FSM.mkFSM none) "request_time_off").2
          "employee_name" "John" false).2 "request_time_off"
      = some (some "start_date")
    ∧ FSM.get_next_missing_slot
        (FSM.fill_slot (FSM.set_active_intent (FSM.mkFSM none) "request_time_off").2
          "employee_name" "John" false).2 "request_time_off"
      ≠ some (some "employee_name") := by decide

/-- C3 (amended): `get_next_missing_slot` returns the first slot in schema
order for which *no record at all* exists (confirmed or not), and `null`
exactly when every schema slot has a record. -/
theorem C3_next_missing_first_unrecorded (s : FSMStateData) (intent : String)
    (sl : List String) (h : get_slot_names? intent = some sl) (hne : intent ≠ "") :
    FSM.get_next_missing_slot s intent
      = some ((sl.filter (fun n => (lookupA n s.slot_values).isNone)).head?)
    ∧ (FSM.get_next_missing_slot s intent = some none
        ↔ ∀ n ∈ sl, (lookupA n s.slot_values).isSome) := by
  have h1 : FSM.get_next_missing_slot s intent
      = some ((sl.filter (fun n => (lookupA n s.slot_values).isNone)).head?) := by
    simp [FSM.get_next_missing_slot, FSM.get_missing_slots, hne, h]
  refine ⟨h1, ?_⟩
  rw [h1]
  simp only [Option.some.injEq, List.head?_eq_none_iff, List.filter_eq_nil_iff]
  constructor
  · intro hall n hn
    have := hall n hn
    simpa [Option.isNone_iff_eq_none, Option.isSome_iff_ne_none] using this
  · intro hall n hn
    have := hall n hn
    simpa [Option.isNone_iff_eq_none, Option.isSome_iff_ne_none] using this

/-- C3 witness: concrete instance of the amended statement. -/
theorem C3_next_missing_first_unrecorded_witness :
    FSM.get_next_missing_slot
        (FSM.fill_slot (FSM.set_active_intent (FSM.mkFSM none) "request_time_off").2
          "employee_name" "John" false).2 "request_time_off"
      = some ((["employee_name", "start_date", "end_date", "time_off_type", "reason",
          "notify_manager"].filter (fun n =>
            (lookupA n
              ((FSM.fill_slot (FSM.set_active_intent (FSM.mkFSM none) "request_time_off").2
                "employee_name" "John" false).2).slot_values).isNone)).head?) :=
  (C3_next_missing_first_unrecorded
    (FSM.fill_slot (FSM.set_active_intent (FSM.mkFSM none) "request_time_off").2
      "employee_name" "John" false).2
    "request_time_off"
    ["employee_name", "start_date", "end_date", "time_off_type", "reason", "notify_manager"]
    (by decide) (by decide)).1

/-! ## C2: retry exhaustion -/

/-- Oracles on which slot selection and extraction always fail (three
consecutive non-answers for the current slot). -/
def C2_failing_oracle : Oracles :=
  { detect_intent := fun _ => none,
    select_slots := fun _ _ _ => [],
    extract_slot_value := fun _ _ _ => none }

/-- A `request_time_off` task just started (collecting `employee_name`),
followed by three utterances for which extraction fails. -/
def C2_three_failures : Option (DMResult × FSMStateData) :=
  ((DM.process_user_input C2_failing_oracle "it depends"
      (FSM.set_active_intent (FSM.mkFSM none) "request_time_off").2).bind
    (fun p => DM.process_user_input C2_failing_oracle "it depends" p.2)).bind
    (fun p => DM.process_user_input C2_failing_oracle "it depends" p.2)

/-- C2 (code bug): after the third consecutive extraction failure for
`employee_name` the retry counter is exhausted, yet the produced response is
an `ask_slot` for that very same slot — the "skipped" slot was never
recorded anywhere, so `get_next_missing_slot` still returns it and the
orchestrator asks for it again, contradicting the claim that the response
is never another request for the exhausted slot. -/
theorem C2_third_failure_reasks_same_slot :
    (C2_three_failures.map (fun p => (p.1.action, p.1.metadata)))
      = some ("ask_slot", Meta.ask "employee_name" "request_time_off" "What is your name?")
    ∧ (C2_three_failures.map (fun p =>
        lookupA "employee_name" p.2.slot_retry_counts)) = some (some 3)
    ∧ (C2_three_failures.map (fun p => p.2.current_slot_being_collected))
      = some (some "employee_name") := by decide

/-! ## C9: execution confirmation -/

theorem start_slot_collection_action_ne_exec (s : FSMStateData) (r : DMResult)
    (s' : FSMStateData) (h : DM.start_slot_collection s = some (r, s')) :
    r.action ≠ "execute_action" := by
  simp only [DM.start_slot_collection] at h
  split at h
  · simp only [Option.some.injEq, Prod.mk.injEq] at h
    obtain ⟨h1, _⟩ := h
    subst h1
    decide
  · split at h
    · exact absurd h (by simp)
    · split at h
      · rw [Option.map_eq_some'] at h
        obtain ⟨a, _, hf⟩ := h
        simp only [Prod.mk.injEq] at hf
        obtain ⟨h1, _⟩ := hf
        subst h1
        decide
      · split at h
        · exact absurd h (by simp)
        · simp only [Option.some.injEq, Prod.mk.injEq] at h
          obtain ⟨h1, _⟩ := h
          subst h1
          simp

theorem retry_or_skip_action_ne_exec (s : FSMStateData) (intent cur : String) (r : DMResult)
    (s' : FSMStateData) (h : DM.retry_or_skip s intent cur = some (r, s')) :
    r.action ≠ "execute_action" := by
  simp only [DM.retry_or_skip] at h
  split at h
  · split at h
    · exact absurd h (by simp)
    · split at h
      · exact start_slot_collection_action_ne_exec _ _ _ h
      · simp only [Option.some.injEq, Prod.mk.injEq] at h
        obtain ⟨h1, _⟩ := h
        subst h1
        decide
  · split at h
    · exact absurd h (by simp)
    · simp only [Option.some.injEq, Prod.mk.injEq] at h
      obtain ⟨h1, _⟩ := h
      subst h1
      simp

theorem fill_one_and_continue_action_ne_exec (s : FSMStateData) (intent slot v : String)
    (r : DMResult) (s' : FSMStateData)
    (h : DM.fill_one_and_continue s intent slot v = some (r, s')) :
    r.action ≠ "execute_action" := by
  simp only [DM.fill_one_and_continue] at h
  rw [Option.bind_eq_some] at h
  obtain ⟨a, _, hf⟩ := h
  split at hf
  · exact absurd hf (by simp)
  · simp only [Option.some.injEq, Prod.mk.injEq] at hf
    obtain ⟨h1, _⟩ := hf
    subst h1
    decide
  · exact start_slot_collection_action_ne_exec _ _ _ hf

theorem extraction_section_action_ne_exec (o : Oracles) (u : String) (s : FSMStateData)
    (intent : String) (cur : Option String) (filled : List (String × String))
    (selected : List String) (r : DMResult) (s' : FSMStateData)
    (h : DM.extraction_section o u s intent cur filled selected = some (r, s')) :
    r.action ≠ "execute_action" := by
  simp only [DM.extraction_section] at h
  split at h
  · rw [Option.bind_eq_some] at h
    obtain ⟨a, _, hf⟩ := h
    split at hf
    · exact absurd hf (by simp)
    · simp only [Option.some.injEq, Prod.mk.injEq] at hf
      obtain ⟨h1, _⟩ := hf
      subst h1
      decide
    · exact start_slot_collection_action_ne_exec _ _ _ hf
  · split at h
    · split at h
      · exact fill_one_and_continue_action_ne_exec _ _ _ _ _ _ h
      · split at h
        · exact retry_or_skip_action_ne_exec _ _ _ _ _ h
        · simp only [Option.some.injEq, Prod.mk.injEq] at h
          obtain ⟨h1, _⟩ := h
          subst h1
          decide
    · split at h
      · exact retry_or_skip_action_ne_exec _ _ _ _ _ h
      · simp only [Option.some.injEq, Prod.mk.injEq] at h
        obtain ⟨h1, _⟩ := h
        subst h1
        decide

theorem handle_slot_collection_action_ne_exec (o : Oracles) (u : String) (s : FSMStateData)
    (r : DMResult) (s' : FSMStateData)
    (h : DM.handle_slot_collection o u s = some (r, s')) :
    r.action ≠ "execute_action" := by
  simp only [DM.handle_slot_collection] at h
  split at h
  · simp only [Option.some.injEq, Prod.mk.injEq] at h
    obtain ⟨h1, _⟩ := h
    subst h1
    decide
  · rw [Option.bind_eq_some] at h
    obtain ⟨a, _, hf⟩ := h
    split at hf
    · split at hf
      · exact fill_one_and_continue_action_ne_exec _ _ _ _ _ _ hf
      · exact retry_or_skip_action_ne_exec _ _ _ _ _ hf
    · exact extraction_section_action_ne_exec _ _ _ _ _ _ _ _ _ hf

/-- C9: in phase `READY_TO_EXECUTE` (with a non-empty utterance), the
response is `execute_action` — carrying the active task name and the full
confirmed-slot mapping in its metadata, with the state unchanged — exactly
when the lexicon predicate `is_execution_confirmation` holds of the
utterance (a case-insensitive substring match against
yes/yeah/yep/sure/ok/okay/proceed/go ahead/execute/submit); any other
utterance is handed to the slot-collection handler instead. -/
theorem C9_execution_confirmation (o : Oracles) (u : String) (s : FSMStateData)
    (hst : s.current_state = FSMState.READY_TO_EXECUTE)
    (hu : strStrip u ≠ "") :
    (DM.is_execution_confirmation u = true →
      DM.process_user_input o u s
        = some (⟨"Executing your request...", "execute_action",
                 Meta.exec s.active_intent (FSM.get_filled_slots s)⟩, s))
    ∧ (DM.is_execution_confirmation u = false →
      DM.process_user_input o u s = DM.handle_slot_collection o u s)
    ∧ (∀ (r : DMResult) (s' : FSMStateData),
        DM.process_user_input o u s = some (r, s') →
        (r.action = "execute_action" ↔ DM.is_execution_confirmation u = true)) := by
  have hred : DM.process_user_input o u s
      = if DM.is_execution_confirmation u then
          some (⟨"Executing your request...", "execute_action",
                 Meta.exec s.active_intent (FSM.get_filled_slots s)⟩, s)
        else DM.handle_slot_collection o u s := by
    simp [DM.process_user_input, hst, hu]
  refine ⟨?_, ?_, ?_⟩
  · intro hex
    rw [hred, if_pos hex]
  · intro hex
    rw [hred, hex]
    simp
  · intro r s' h
    by_cases hex : DM.is_execution_confirmation u = true
    · rw [hred, if_pos hex] at h
      simp only [Option.some.injEq, Prod.mk.injEq] at h
      obtain ⟨h1, _⟩ := h
      subst h1
      simp [hex]
    · rw [hred, if_neg (by simpa using hex)] at h
      have := handle_slot_collection_action_ne_exec o u s r s' h
      simp [this, hex]

/-- Oracles for the C9 witness (never consulted on the exercised path). -/
def C9_oracle : Oracles :=
  { detect_intent := fun _ => none,
    select_slots := fun _ _ _ => [],
    extract_slot_value := fun _ _ _ => none }

/-- A `READY_TO_EXECUTE` state with every `request_time_off` slot confirmed. -/
def C9_state : FSMStateData :=
  { current_state := FSMState.READY_TO_EXECUTE,
    active_intent := some "request_time_off",
    queued_intents := [],
    slot_values :=
      [ ("employee_name", { value := "John", confirmed := true }),
        ("start_date", { value := "2025-01-06", confirmed := true }),
        ("end_date", { value := "2025-01-10", confirmed := true }),
        ("time_off_type", { value := "vacation", confirmed := true }),
        ("reason", { value := "rest", confirmed := true }),
        ("notify_manager", { value := "yes", confirmed := true }) ],
    current_slot_being_collected := none,
    slot_retry_counts := [],
    conversation_id := none,
    pending_normalization := none }

/-- C9 witness: the utterance "yes" in `READY_TO_EXECUTE` yields
`execute_action` with the task name and confirmed slots, state unchanged. -/
theorem C9_execution_confirmation_witness :
    DM.process_user_input C9_oracle "yes" C9_state
      = some (⟨"Executing your request...", "execute_action",
               Meta.exec C9_state.active_intent (FSM.get_filled_slots C9_state)⟩, C9_state) :=
  (C9_execution_confirmation C9_oracle "yes" C9_state (by decide) (by decide)).1 (by decide)

/-! ## C8: normalization confirmation turn -/

theorem confirm_slot_current_state (s : FSMStateData) (n : String) :
    (FSM.confirm_slot s n).2.current_state = s.current_state := by
  unfold FSM.confirm_slot
  split <;> rfl

theorem confirm_slot_active (s : FSMStateData) (n : String) :
    (FSM.confirm_slot s n).2.active_intent = s.active_intent := by
  unfold FSM.confirm_slot
  split <;> rfl

theorem confirm_slot_lookup_isSome (s : FSMStateData) (n m : String) :
    (lookupA m (FSM.confirm_slot s n).2.slot_values).isSome
      = (lookupA m s.slot_values).isSome := by
  unfold FSM.confirm_slot
  split
  · rfl
  · by_cases hm : m = n
    · subst hm
      simp [lookupA_updateA_self]
    · simp [lookupA_updateA_ne n m _ _ hm]

theorem confirm_slot_confirmed_self (s : FSMStateData) (n : String)
    (h : (lookupA n s.slot_values).isSome = true) :
    (lookupA n (FSM.confirm_slot s n).2.slot_values).map SlotValue.confirmed
      = some true := by
  obtain ⟨sv, hsv⟩ := Option.isSome_iff_exists.mp h
  unfold FSM.confirm_slot
  rw [if_neg (by simp [hsv])]
  simp [lookupA_updateA_self, hsv]

theorem confirm_slot_confirmed_mono (s : FSMStateData) (n m : String)
    (h : (lookupA m s.slot_values).map SlotValue.confirmed = some true) :
    (lookupA m (FSM.confirm_slot s n).2.slot_values).map SlotValue.confirmed
      = some true := by
  unfold FSM.confirm_slot
  split
  · exact h
  · by_cases hm : m = n
    · subst hm
      simp only [lookupA_updateA_self]
      cases hl : lookupA m s.slot_values with
      | none => rw [hl] at h; simp at h
      | some sv => simp
    · simp only [lookupA_updateA_ne n m _ _ hm]
      exact h

theorem confirm_slot_pending_self (s : FSMStateData) (n : String)
    (h : (lookupA n s.slot_values).isSome = true) :
    (FSM.confirm_slot s n).2.pending_normalization = none := by
  unfold FSM.confirm_slot
  rw [if_neg (by simp [Option.isNone_iff_eq_none]; exact Option.isSome_iff_ne_none.mp h)]

theorem confirm_slot_pending_mono (s : FSMStateData) (n : String)
    (h : s.pending_normalization = none) :
    (FSM.confirm_slot s n).2.pending_normalization = none := by
  unfold FSM.confirm_slot
  split <;> simp [h]

theorem reject_pending (s : FSMStateData) (n : String) :
    (FSM.reject_normalization s n).pending_normalization = none := rfl

theorem reject_current_state (s : FSMStateData) (n : String) :
    (FSM.reject_normalization s n).current_state = s.current_state := rfl

theorem reject_active (s : FSMStateData) (n : String) :
    (FSM.reject_normalization s n).active_intent = s.active_intent := rfl

theorem reject_lookup_isSome (s : FSMStateData) (n m : String) :
    (lookupA m (FSM.reject_normalization s n).slot_values).isSome
      = (lookupA m s.slot_values).isSome := by
  unfold FSM.reject_normalization
  simp only []
  split
  · by_cases hm : m = n
    · subst hm
      simp [lookupA_updateA_self]
    · simp [lookupA_updateA_ne n m _ _ hm]
  · rfl

theorem reject_prop_self (s : FSMStateData) (n : String)
    (h : (lookupA n s.slot_values).isSome = true) :
    (lookupA n (FSM.reject_normalization s n).slot_values).map
        (fun sv => (sv.normalized_value, sv.needs_confirmation))
      = some (none, false) := by
  obtain ⟨sv, hsv⟩ := Option.isSome_iff_exists.mp h
  unfold FSM.reject_normalization
  simp only []
  rw [if_pos (by simp [hsv])]
  simp [lookupA_updateA_self, hsv]

theorem reject_prop_mono (s : FSMStateData) (n m : String)
    (h : (lookupA m s.slot_values).map
        (fun sv => (sv.normalized_value, sv.needs_confirmation)) = some (none, false)) :
    (lookupA m (FSM.reject_normalization s n).slot_values).map
        (fun sv => (sv.normalized_value, sv.needs_confirmation))
      = some (none, false) := by
  unfold FSM.reject_normalization
  simp only []
  split
  · by_cases hm : m = n
    · subst hm
      simp only [lookupA_updateA_self]
      cases hl : lookupA m s.slot_values with
      | none => rw [hl] at h; simp at h
      | some sv => simp
    · simp only [lookupA_updateA_ne n m _ _ hm]
      exact h
  · exact h

theorem foldl_confirm_props (ns : List String) : ∀ s : FSMStateData,
    (∀ n ∈ ns, (lookupA n s.slot_values).isSome = true) →
    ((ns.foldl (fun t n => (FSM.confirm_slot t n).2) s).current_state = s.current_state)
    ∧ ((ns.foldl (fun t n => (FSM.confirm_slot t n).2) s).active_intent = s.active_intent)
    ∧ (∀ m, (lookupA m (ns.foldl (fun t n => (FSM.confirm_slot t n).2) s).slot_values).isSome
        = (lookupA m s.slot_values).isSome)
    ∧ (∀ m, (lookupA m s.slot_values).map SlotValue.confirmed = some true →
        (lookupA m (ns.foldl (fun t n => (FSM.confirm_slot t n).2) s).slot_values).map
          SlotValue.confirmed = some true)
    ∧ (∀ n ∈ ns, (lookupA n (ns.foldl (fun t n => (FSM.confirm_slot t n).2) s).slot_values).map
        SlotValue.confirmed = some true)
    ∧ (s.pending_normalization = none →
        (ns.foldl (fun t n => (FSM.confirm_slot t n).2) s).pending_normalization = none)
    ∧ (ns ≠ [] →
        (ns.foldl (fun t n => (FSM.confirm_slot t n).2) s).pending_normalization = none) := by
  induction ns with
  | nil =>
    intro s _
    exact ⟨rfl, rfl, fun _ => rfl, fun _ h => h, fun n hn => absurd hn (by simp),
      fun h => h, fun h => absurd rfl h⟩
  | cons hd tl ih =>
    intro s hrec
    have hhd : (lookupA hd s.slot_values).isSome = true := hrec hd (by simp)
    have hrec' : ∀ n ∈ tl, (lookupA n (FSM.confirm_slot s hd).2.slot_values).isSome = true := by
      intro n hn
      rw [confirm_slot_lookup_isSome]
      exact hrec n (by simp [hn])
    obtain ⟨ih1, ih2, ih3, ih4, ih5, ih6, _⟩ := ih (FSM.confirm_slot s hd).2 hrec'
    simp only [List.foldl_cons]
    refine ⟨?_, ?_, ?_, ?_, ?_, ?_, ?_⟩
    · rw [ih1, confirm_slot_current_state]
    · rw [ih2, confirm_slot_active]
    · intro m
      rw [ih3, confirm_slot_lookup_isSome]
    · intro m hm
      exact ih4 m (confirm_slot_confirmed_mono s hd m hm)
    · intro n hn
      rcases List.mem_cons.mp hn with hn | hn
      · subst hn
        exact ih4 n (confirm_slot_confirmed_self s n hhd)
      · exact ih5 n hn
    · intro _
      exact ih6 (confirm_slot_pending_self s hd hhd)
    · intro _
      exact ih6 (confirm_slot_pending_self s hd hhd)

theorem foldl_reject_props (ns : List String) : ∀ s : FSMStateData,
    (∀ n ∈ ns, (lookupA n s.slot_values).isSome = true) →
    ((ns.foldl (fun t n => FSM.reject_normalization t n) s).current_state = s.current_state)
    ∧ ((ns.foldl (fun t n => FSM.reject_normalization t n) s).active_intent = s.active_intent)
    ∧ (∀ m, (lookupA m (ns.foldl (fun t n => FSM.reject_normalization t n) s).slot_values).isSome
        = (lookupA m s.slot_values).isSome)
    ∧ (∀ m, (lookupA m s.slot_values).map
          (fun sv => (sv.normalized_value, sv.needs_confirmation)) = some (none, false) →
        (lookupA m (ns.foldl (fun t n => FSM.reject_normalization t n) s).slot_values).map
          (fun sv => (sv.normalized_value, sv.needs_confirmation)) = some (none, false))
    ∧ (∀ n ∈ ns, (lookupA n (ns.foldl (fun t n => FSM.reject_normalization t n) s).slot_values).map
        (fun sv => (sv.normalized_value, sv.needs_confirmation)) = some (none, false))
    ∧ (s.pending_normalization = none →
        (ns.foldl (fun t n => FSM.reject_normalization t n) s).pending_normalization = none)
    ∧ (ns ≠ [] →
        (ns.foldl (fun t n => FSM.reject_normalization t n) s).pending_normalization = none) := by
  induction ns with
  | nil =>
    intro s _
    exact ⟨rfl, rfl, fun _ => rfl, fun _ h => h, fun n hn => absurd hn (by simp),
      fun h => h, fun h => absurd rfl h⟩
  | cons hd tl ih =>
    intro s hrec
    have hhd : (lookupA hd s.slot_values).isSome = true := hrec hd (by simp)
    have hrec' : ∀ n ∈ tl, (lookupA n (FSM.reject_normalization s hd).slot_values).isSome = true := by
      intro n hn
      rw [reject_lookup_isSome]
      exact hrec n (by simp [hn])
    obtain ⟨ih1, ih2, ih3, ih4, ih5, ih6, _⟩ := ih (FSM.reject_normalization s hd) hrec'
    simp only [List.foldl_cons]
    refine ⟨?_, ?_, ?_, ?_, ?_, ?_, ?_⟩
    · rw [ih1, reject_current_state]
    · rw [ih2, reject_active]
    · intro m
      rw [ih3, reject_lookup_isSome]
    · intro m hm
      exact ih4 m (reject_prop_mono s hd m hm)
    · intro n hn
      rcases List.mem_cons.mp hn with hn | hn
      · subst hn
        exact ih4 n (reject_prop_self s n hhd)
      · exact ih5 n hn
    · intro _
      exact ih6 (reject_pending s hd)
    · intro _
      exact ih6 (reject_pending s hd)

theorem lookupA_map_pair_isSome (schema : List SlotSchema) (n : String)
    (h : n ∈ schema.map SlotSchema.name) :
    (lookupA n (schema.map (fun sl => (sl.name, sl.question)))).isSome = true := by
  induction schema with
  | nil => simp at h
  | cons hd tl ih =>
    simp only [List.map_cons, lookupA]
    by_cases hh : hd.name = n
    · simp [hh]
    · simp only [if_neg hh]
      rcases (by simpa using h : n = hd.name ∨ ∃ a ∈ tl, a.name = n) with hn | ⟨a, hat, hna⟩
      · exact absurd hn.symm hh
      · exact ih (List.mem_map.mpr ⟨a, hat, hna⟩)

theorem questions_total (i : String) (sl : List String)
    (h : get_slot_names? i = some sl) :
    ∀ n ∈ sl, ((get_slot_questions? i).bind (lookupA n)).isSome = true := by
  intro n hn
  unfold get_slot_names? at h
  cases hs : get_schema? i with
  | none => rw [hs] at h; simp at h
  | some schema =>
    rw [hs] at h
    simp only [Option.map_some', Option.some.injEq] at h
    unfold get_slot_questions?
    rw [hs]
    simp only [Option.map_some', Option.some_bind]
    exact lookupA_map_pair_isSome schema n (h ▸ hn)

theorem advance_confirming_spec (s : FSMStateData) (i : String) (sl : List String)
    (ha : s.active_intent = some i) (hi : i ≠ "")
    (hsl : get_slot_names? i = some sl)
    (hst : s.current_state = FSMState.CONFIRMING_NORMALIZATION) :
    ∃ s', FSM.advance_state s = some s'
      ∧ s'.slot_values = s.slot_values
      ∧ s'.active_intent = s.active_intent
      ∧ s'.pending_normalization = s.pending_normalization
      ∧ s'.current_slot_being_collected = s.current_slot_being_collected
      ∧ (s'.current_state = FSMState.READY_TO_EXECUTE
          ∨ s'.current_state = FSMState.COLLECTING_SLOT) := by
  unfold FSM.advance_state
  rw [hst]
  have hfal : optStrFalsy s.active_intent = false := by
    simp [optStrFalsy, ha, hi]
  rw [hfal]
  have hchk : FSM.check_all_slots_filled s (s.active_intent.getD "")
      = some (sl.all (fun n =>
          match lookupA n s.slot_values with
          | some sv => sv.confirmed
          | none => false)) := by
    unfold FSM.check_all_slots_filled
    rw [ha]
    simp [hi, hsl]
  rw [hchk]
  cases (sl.all (fun n =>
      match lookupA n s.slot_values with
      | some sv => sv.confirmed
      | none => false)) with
  | true => exact ⟨_, rfl, rfl, rfl, rfl, rfl, Or.inl rfl⟩
  | false => exact ⟨_, rfl, rfl, rfl, rfl, rfl, Or.inr rfl⟩

theorem advance_ready_or_collecting_spec (s : FSMStateData) (i : String) (sl : List String)
    (ha : s.active_intent = some i) (hi : i ≠ "")
    (hsl : get_slot_names? i = some sl)
    (hp : s.pending_normalization = none)
    (hst : s.current_state = FSMState.READY_TO_EXECUTE
        ∨ s.current_state = FSMState.COLLECTING_SLOT) :
    ∃ s', FSM.advance_state s = some s'
      ∧ s'.slot_values = s.slot_values
      ∧ s'.active_intent = s.active_intent
      ∧ s'.pending_normalization = s.pending_normalization
      ∧ (s'.current_state = FSMState.READY_TO_EXECUTE
          ∨ s'.current_state = FSMState.COLLECTING_SLOT) := by
  rcases hst with hst | hst
  · refine ⟨s, ?_, rfl, rfl, rfl, Or.inl hst⟩
    unfold FSM.advance_state
    rw [hst]
  · unfold FSM.advance_state
    rw [hst]
    have hfal : optStrFalsy s.active_intent = false := by
      simp [optStrFalsy, ha, hi]
    rw [hfal]
    have hchk : FSM.check_all_slots_filled s (s.active_intent.getD "")
        = some (sl.all (fun n =>
            match lookupA n s.slot_values with
            | some sv => sv.confirmed
            | none => false)) := by
      unfold FSM.check_all_slots_filled
      rw [ha]
      simp [hi, hsl]
    rw [hchk]
    cases (sl.all (fun n =>
        match lookupA n s.slot_values with
        | some sv => sv.confirmed
        | none => false)) with
    | true => exact ⟨_, rfl, rfl, rfl, rfl, Or.inl rfl⟩
    | false =>
      have hpt : pendTruthy s.pending_normalization = false := by
        simp [pendTruthy, hp]
      rw [hpt]
      exact ⟨s, rfl, rfl, rfl, rfl, Or.inr hst⟩

theorem start_slot_collection_spec (s : FSMStateData) (i : String) (sl : List String)
    (ha : s.active_intent = some i) (hi : i ≠ "")
    (hsl : get_slot_names? i = some sl) (hnil : "" ∉ sl)
    (hp : s.pending_normalization = none)
    (hst : s.current_state = FSMState.READY_TO_EXECUTE
        ∨ s.current_state = FSMState.COLLECTING_SLOT) :
    ∃ r s', DM.start_slot_collection s = some (r, s')
      ∧ s'.slot_values = s.slot_values
      ∧ s'.pending_normalization = none
      ∧ (s'.current_state = FSMState.READY_TO_EXECUTE
          ∨ s'.current_state = FSMState.COLLECTING_SLOT) := by
  have hnext : FSM.get_next_missing_slot s i
      = some ((sl.filter (fun n => (lookupA n s.slot_values).isNone)).head?) := by
    simp [FSM.get_next_missing_slot, FSM.get_missing_slots, hi, hsl]
  cases hh : (sl.filter (fun n => (lookupA n s.slot_values).isNone)).head? with
  | none =>
    obtain ⟨s', hadv, h1, h2, h3, h4⟩ :=
      advance_ready_or_collecting_spec s i sl ha hi hsl hp hst
    have hred : DM.start_slot_collection s
        = Option.map (fun s₁ =>
            (({ response_text := "I have all the information I need. Ready to proceed?",
                action := "ready_to_execute", metadata := Meta.empty } : DMResult), s₁))
            (FSM.advance_state s) := by
      unfold DM.start_slot_collection
      rw [ha]
      simp [hi, hnext, hh, optStrFalsy]
    refine ⟨{ response_text := "I have all the information I need. Ready to proceed?",
              action := "ready_to_execute", metadata := Meta.empty }, s', ?_, h1,
            by rw [h3, hp], h4⟩
    rw [hred, hadv]
    rfl
  | some slot =>
    have hmem : slot ∈ sl := by
      have hmem2 : slot ∈ sl.filter (fun n => (lookupA n s.slot_values).isNone) :=
        List.mem_of_mem_head? (by rw [hh]; exact rfl)
      exact (List.mem_filter.mp hmem2).1
    have hslot : slot ≠ "" := fun hc => hnil (hc ▸ hmem)
    obtain ⟨q, hq⟩ := Option.isSome_iff_exists.mp (questions_total i sl hsl slot hmem)
    have hred : DM.start_slot_collection s
        = some (({ response_text := q, action := "ask_slot",
                   metadata := Meta.ask slot i q } : DMResult),
                FSM.set_current_slot s (some slot)) := by
      unfold DM.start_slot_collection
      rw [ha]
      simp [hi, hnext, hh, optStrFalsy, hslot, hq]
    rw [hred]
    exact ⟨_, _, rfl, rfl, hp, hst⟩

/-- C8: in `CONFIRMING_NORMALIZATION` with a nonempty pending-normalization
map (whose slots all have records, as `set_pending_normalization` on
recorded slots guarantees, and a known nonempty active intent): an
affirmative utterance (exact lexicon yes/yeah/yep/sure/ok/okay/confirm/
correct after lowercasing and stripping) confirms every slot named in the
map and advances the phase; a negative utterance (no/nope/nah/incorrect/
wrong) rejects the proposed normalization of every such slot (clearing its
candidate and needs-confirmation flag) and advances; any other utterance
returns `confirm_normalization` surfacing the first pending proposal's slot
name and candidate value with the entire state unchanged. -/
theorem C8_normalization_confirmation_turn (u : String) (s : FSMStateData)
    (i k₀ v₀ : String) (rest : List (String × String)) (sl : List String)
    (hstate : s.current_state = FSMState.CONFIRMING_NORMALIZATION)
    (hpend : s.pending_normalization = some ((k₀, v₀) :: rest))
    (hrec : ∀ n ∈ keysA ((k₀, v₀) :: rest), (lookupA n s.slot_values).isSome = true)
    (ha : s.active_intent = some i) (hi : i ≠ "")
    (hsl : get_slot_names? i = some sl) (hnil : "" ∉ sl) :
    (strStrip (strLower u)
        ∈ (["yes", "yeah", "yep", "sure", "ok", "okay", "confirm", "correct"] : List String) →
      ∃ r s', DM.handle_normalization_confirmation u s = some (r, s')
        ∧ (∀ n ∈ keysA ((k₀, v₀) :: rest),
            (lookupA n s'.slot_values).map SlotValue.confirmed = some true)
        ∧ (s'.current_state = FSMState.READY_TO_EXECUTE
            ∨ s'.current_state = FSMState.COLLECTING_SLOT)
        ∧ s'.pending_normalization = none)
    ∧ (strStrip (strLower u)
        ∉ (["yes", "yeah", "yep", "sure", "ok", "okay", "confirm", "correct"] : List String) →
       strStrip (strLower u) ∈ (["no", "nope", "nah", "incorrect", "wrong"] : List String) →
      ∃ r s', DM.handle_normalization_confirmation u s = some (r, s')
        ∧ (∀ n ∈ keysA ((k₀, v₀) :: rest),
            (lookupA n s'.slot_values).map
              (fun sv => (sv.normalized_value, sv.needs_confirmation)) = some (none, false))
        ∧ (s'.current_state = FSMState.READY_TO_EXECUTE
            ∨ s'.current_state = FSMState.COLLECTING_SLOT)
        ∧ s'.pending_normalization = none)
    ∧ (strStrip (strLower u)
        ∉ (["yes", "yeah", "yep", "sure", "ok", "okay", "confirm", "correct"] : List String) →
       strStrip (strLower u) ∉ (["no", "nope", "nah", "incorrect", "wrong"] : List String) →
      DM.handle_normalization_confirmation u s
        = some ({ response_text := "I proposed: " ++ v₀ ++ ". Is this correct? (yes/no)",
                  action := "confirm_normalization", metadata := Meta.norm k₀ v₀ }, s)) := by
  have hkeys_ne : keysA ((k₀, v₀) :: rest) ≠ [] := by simp [keysA]
  refine ⟨?_, ?_, ?_⟩
  · intro hA
    obtain ⟨f1, f2, f3, f4, f5, f6, f7⟩ :=
      foldl_confirm_props (keysA ((k₀, v₀) :: rest)) s hrec
    obtain ⟨s₂, hadv, a1, a2, a3, a4, a5⟩ :=
      advance_confirming_spec
        ((keysA ((k₀, v₀) :: rest)).foldl (fun t n => (FSM.confirm_slot t n).2) s)
        i sl (by rw [f2, ha]) hi hsl (by rw [f1, hstate])
    obtain ⟨r, s₃, hstart, b1, b2, b3⟩ :=
      start_slot_collection_spec s₂ i sl (by rw [a2, f2, ha]) hi hsl hnil
        (by rw [a3, f7 hkeys_ne]) a5
    have hred : DM.handle_normalization_confirmation u s
        = (FSM.advance_state
            ((keysA ((k₀, v₀) :: rest)).foldl (fun t n => (FSM.confirm_slot t n).2) s)).bind
            DM.start_slot_collection := by
      unfold DM.handle_normalization_confirmation
      simp only [hA, if_true, hpend, pendTruthy, Option.getD_some, List.isEmpty_cons,
        Bool.not_false, if_true]
    refine ⟨r, s₃, ?_, ?_, b3, b2⟩
    · rw [hred, hadv]
      simpa using hstart
    · intro n hn
      rw [b1, a1]
      exact f5 n hn
  · intro hA hB
    obtain ⟨f1, f2, f3, f4, f5, f6, f7⟩ :=
      foldl_reject_props (keysA ((k₀, v₀) :: rest)) s hrec
    obtain ⟨s₂, hadv, a1, a2, a3, a4, a5⟩ :=
      advance_confirming_spec
        ((keysA ((k₀, v₀) :: rest)).foldl (fun t n => FSM.reject_normalization t n) s)
        i sl (by rw [f2, ha]) hi hsl (by rw [f1, hstate])
    obtain ⟨r, s₃, hstart, b1, b2, b3⟩ :=
      start_slot_collection_spec s₂ i sl (by rw [a2, f2, ha]) hi hsl hnil
        (by rw [a3, f7 hkeys_ne]) a5
    have hred : DM.handle_normalization_confirmation u s
        = (FSM.advance_state
            ((keysA ((k₀, v₀) :: rest)).foldl (fun t n => FSM.reject_normalization t n) s)).bind
            DM.start_slot_collection := by
      unfold DM.handle_normalization_confirmation
      simp only [hA, hB, if_false, if_true, hpend, pendTruthy, Option.getD_some,
        List.isEmpty_cons, Bool.not_false]
    refine ⟨r, s₃, ?_, ?_, b3, b2⟩
    · rw [hred, hadv]
      simpa using hstart
    · intro n hn
      rw [b1, a1]
      exact f5 n hn
  · intro hA hB
    unfold DM.handle_normalization_confirmation
    simp only [hA, hB, if_false, hpend]

/-- State for the C8 witness: a pending normalization of `start_date`. -/
def C8_state : FSMStateData :=
  { current_state := FSMState.CONFIRMING_NORMALIZATION,
    active_intent := some "request_time_off",
    queued_intents := [],
    slot_values :=
      [ ("start_date",
          { value := "next monday", confirmed := false, retry_count := 0,
            normalized_value := some "2025-01-06", needs_confirmation := true }) ],
    current_slot_being_collected := some "start_date",
    slot_retry_counts := [],
    conversation_id := none,
    pending_normalization := some [("start_date", "2025-01-06")] }

/-- C8 witness: the ambiguous utterance "hmm" re-asks the pending proposal
and leaves the state untouched. -/
theorem C8_normalization_confirmation_turn_witness :
    DM.handle_normalization_confirmation "hmm" C8_state
      = some ({ response_text := "I proposed: " ++ "2025-01-06" ++ ". Is this correct? (yes/no)",
                action := "confirm_normalization",
                metadata := Meta.norm "start_date" "2025-01-06" }, C8_state) :=
  (C8_normalization_confirmation_turn "hmm" C8_state "request_time_off" "start_date"
      "2025-01-06" []
      ["employee_name", "start_date", "end_date", "time_off_type", "reason", "notify_manager"]
      rfl rfl (by decide) rfl (by decide) (by decide) (by decide)).2.2
    (by decide) (by decide)
